import Mathlib

/-!
Shallow embedding of the trend-based ranking-event detection engine
(`src/analyzers/event_detector.py`, class `EventDetector`).

Modelling conventions:
* `collected_at` timestamps are rationals measured in hours.
* Python `float` arithmetic on consistencies and percentages is modelled
  exactly over `ℚ`; Python `int(x)` (truncation toward zero) is `truncToInt`.
* Optional snapshot fields (`price`, `review_count`, `stock_status`) are
  `Option`s; Python truthiness (`not x`) treats `none`, `0` and `""` alike.
* The database query boundary of `_analyze_category_trend` is the list of
  rankings it returns, ordered descending by `collected_at` (most recent
  first), exactly as the `order_by(desc(collected_at))` query produces it.
* Wall-clock fields of events (`detected_at`, `time_window_start/end`) are
  irrelevant to the verified claims and are omitted from the `Event` record.
-/

namespace EventDetection

/-- One ranking snapshot row (`AmazonRanking`): the fields read by the
detector. -/
structure Ranking where
  rank : Int
  price : Option ℚ
  reviewCount : Option Int
  stockStatus : Option String
  collectedAt : ℚ
deriving DecidableEq, Repr

/-- The dictionary returned by `_calculate_trend`. -/
structure Trend where
  direction : String
  totalChange : Int
  startRank : Int
  endRank : Int
  consistency : ℚ
  avgChangePerHour : ℚ
  dataPoints : Nat
deriving DecidableEq, Repr

/-- A `RankingEvent` record as constructed by the detector (wall-clock
timestamp fields omitted). -/
structure Event where
  eventType : String
  severity : String
  prevRank : Option Int
  currRank : Option Int
  rankChange : Option Int
  rankChangePct : Option ℚ
  prevPrice : Option ℚ
  currPrice : Option ℚ
  priceChangePct : Option ℚ
  prevReviewCount : Option Int
  currReviewCount : Option Int
  reviewChange : Option Int
  contextCollected : Bool
  insightGenerated : Bool
deriving DecidableEq, Repr

/-- One entry of the `rank_thresholds` dict:
`{'range': (minRank, maxRank), 'threshold': threshold}`.  The dict is
modelled as a list in iteration (insertion) order. -/
structure RankTier where
  minRank : Int
  maxRank : Int
  threshold : Int
deriving DecidableEq, Repr

/-- The constructor parameters of `EventDetector` that the detection
logic reads. -/
structure Config where
  trendWindowsHours : List Int
  trendMinDataPoints : Nat
  trendConsistencyThreshold : ℚ
  surgeWindowHours : Int
  steadyWindowHours : Int
  steadyConsistencyMin : ℚ
  rankThresholds : List RankTier
  rankChangePctThreshold : ℚ
  useHybridThreshold : Bool
  priceChangePctThreshold : ℚ
  reviewSurgeThreshold : Int
deriving DecidableEq, Repr

/-- Python `int(x)` on a float: truncation toward zero. -/
def truncToInt (q : ℚ) : Int :=
  if q < 0 then -⌊-q⌋ else ⌊q⌋

/-- The 0–100 score accumulated inside `_calculate_severity`
(`score = 0; score += ...` three times). -/
def calculateSeverityScore (changeAmount : Int) (currentRank : Int)
    (consistency : ℚ) : Int :=
  let score : Int := 0
  let score := score +
    (if changeAmount ≥ 20 then 40
     else if changeAmount ≥ 15 then 30
     else if changeAmount ≥ 10 then 20
     else if changeAmount ≥ 5 then 10
     else 0)
  let score := score +
    (if currentRank ≤ 5 then 40
     else if currentRank ≤ 10 then 30
     else if currentRank ≤ 20 then 20
     else if currentRank ≤ 30 then 10
     else 0)
  let score := score + truncToInt (consistency * 20)
  score

/-- Embeds `_calculate_severity`: bands the score into the four severity labels. -/
def calculateSeverity (changeAmount : Int) (currentRank : Int)
    (consistency : ℚ) : String :=
  let score := calculateSeverityScore changeAmount currentRank consistency
  if score ≥ 80 then "critical"
  else if score ≥ 60 then "high"
  else if score ≥ 40 then "medium"
  else "low"

/-- Embeds `_get_rank_threshold`: the first tier whose `(min, max)` range contains the
rank wins; otherwise the hard-coded 15. -/
def getRankThreshold (thresholds : List RankTier) (rank : Int) : Int :=
  match thresholds with
  | [] => 15
  | t :: rest =>
      if t.minRank ≤ rank ∧ rank ≤ t.maxRank then t.threshold
      else getRankThreshold rest rank

/-- Embeds `_trend_meets_thresholds`. -/
def trendMeetsThresholds (cfg : Config) (trend : Trend) : Bool :=
  if trend.consistency < cfg.trendConsistencyThreshold then false
  else
    let absThreshold := getRankThreshold cfg.rankThresholds trend.endRank
    if |trend.totalChange| ≥ absThreshold then true
    else if cfg.useHybridThreshold ∧ trend.startRank > 0 ∧
        (|trend.totalChange| : ℚ) / (trend.startRank : ℚ) * 100 ≥
          cfg.rankChangePctThreshold then true
    else false

/-- Embeds `sorted(rankings, key=lambda r: r.collected_at)`: Python's stable sort
ascending by `collected_at`. -/
def sortRankings (rankings : List Ranking) : List Ranking :=
  rankings.mergeSort (fun a b => a.collectedAt ≤ b.collectedAt)

/-- The `direction_changes` loop of `_calculate_trend` over the sorted rank
sequence: sign of each nonzero consecutive `prev_rank - curr_rank`. -/
def directionChanges : List Int → List Int
  | [] => []
  | [_] => []
  | prev :: curr :: rest =>
      let change := prev - curr
      (if change ≠ 0 then [if change > 0 then 1 else (-1 : Int)] else []) ++
        directionChanges (curr :: rest)

/-- Embeds `_calculate_trend`. -/
def calculateTrend (rankings : List Ranking) : Option Trend :=
  if rankings.length < 2 then none
  else
    match sortRankings rankings with
    | [] => none
    | first :: rest =>
        let sorted := first :: rest
        let last := sorted.getLastD first
        let startRank := first.rank
        let endRank := last.rank
        let totalChange := startRank - endRank
        let dirs := directionChanges (sorted.map (fun r => r.rank))
        if dirs.isEmpty then none
        else
          let primaryDirection : Int := if totalChange > 0 then 1 else -1
          let consistentCount := (dirs.filter (fun d => d = primaryDirection)).length
          let consistency : ℚ := (consistentCount : ℚ) / (dirs.length : ℚ)
          let timeSpan := last.collectedAt - first.collectedAt
          let avgChangePerHour : ℚ :=
            if timeSpan > 0 then (|totalChange| : ℚ) / timeSpan else 0
          some
            { direction :=
                if totalChange > 0 then "rising"
                else if totalChange < 0 then "falling"
                else "stable"
              totalChange := totalChange
              startRank := startRank
              endRank := endRank
              consistency := consistency
              avgChangePerHour := avgChangePerHour
              dataPoints := sorted.length }

/-- Embeds `_calculate_trends_by_window`: the per-window trend dict, as an
association list keyed by window hours in iteration order
(`trend_windows_hours` is sorted and deduplicated in `__init__`). -/
def calculateTrendsByWindow (cfg : Config) (rankings : List Ranking)
    (now : ℚ) : List (Int × Trend) :=
  cfg.trendWindowsHours.filterMap (fun (windowHours : Int) =>
    let windowCutoff := now - (windowHours : ℚ)
    let windowRankings := rankings.filter (fun r => r.collectedAt ≥ windowCutoff)
    if windowRankings.length < cfg.trendMinDataPoints then none
    else (calculateTrend windowRankings).map (fun t => (windowHours, t)))

/-- Python `trend_map.get(window_hours)` on the window-keyed trend dict:
the value of the (unique) matching key, if any. -/
def trendMapGet (trendMap : List (Int × Trend)) (key : Int) : Option Trend :=
  match trendMap with
  | [] => none
  | (w, t) :: rest => if w = key then some t else trendMapGet rest key

/-- Python `max(candidates, key=lambda item: item[0])`: first entry with the
largest window key (keys are distinct in practice; `max` keeps the first
maximal element). -/
def maxByWindow (candidates : List (Int × Trend)) : Option (Int × Trend) :=
  candidates.foldl
    (fun acc item =>
      match acc with
      | none => some item
      | some best => if item.1 > best.1 then some item else some best)
    none

/-- Final branch of `_select_trend_for_event`: among all passing trends pick
the one with the largest window and classify by the steady-consistency
floor, else by sign. -/
def selectFallback (cfg : Config) (trendMap : List (Int × Trend)) :
    Option (Trend × String) :=
  let candidates := trendMap.filter (fun item => trendMeetsThresholds cfg item.2)
  match maxByWindow candidates with
  | none => none
  | some (_, trend) =>
      if trend.consistency ≥ cfg.steadyConsistencyMin then
        some (trend, if trend.totalChange > 0 then "STEADY_RISE" else "STEADY_DECLINE")
      else
        some (trend, if trend.totalChange > 0 then "RANK_SURGE" else "RANK_DROP")

/-- Middle branch of `_select_trend_for_event`: the surge window. -/
def selectSurgeOrFallback (cfg : Config) (trendMap : List (Int × Trend)) :
    Option (Trend × String) :=
  match trendMapGet trendMap cfg.surgeWindowHours with
  | some surgeTrend =>
      if trendMeetsThresholds cfg surgeTrend then
        some (surgeTrend,
          if surgeTrend.totalChange > 0 then "RANK_SURGE" else "RANK_DROP")
      else selectFallback cfg trendMap
  | none => selectFallback cfg trendMap

/-- Embeds `_select_trend_for_event`: steady window first, then surge window, then
the largest passing window. -/
def selectTrendForEvent (cfg : Config) (trendMap : List (Int × Trend)) :
    Option (Trend × String) :=
  if trendMap.isEmpty then none
  else
    match trendMapGet trendMap cfg.steadyWindowHours with
    | some steadyTrend =>
        if trendMeetsThresholds cfg steadyTrend ∧
            steadyTrend.consistency ≥ cfg.steadyConsistencyMin then
          some (steadyTrend,
            if steadyTrend.totalChange > 0 then "STEADY_RISE" else "STEADY_DECLINE")
        else selectSurgeOrFallback cfg trendMap
    | none => selectSurgeOrFallback cfg trendMap

/-- Embeds `_build_rank_event`: re-checks the threshold policy, scores severity and
assembles the rank-type `RankingEvent`. -/
def buildRankEvent (cfg : Config) (trend : Trend) (eventType : String) :
    Option Event :=
  if ¬ trendMeetsThresholds cfg trend then none
  else
    some
      { eventType := eventType
        severity := calculateSeverity |trend.totalChange| trend.endRank trend.consistency
        prevRank := some trend.startRank
        currRank := some trend.endRank
        rankChange := some (trend.endRank - trend.startRank)
        rankChangePct :=
          if trend.startRank > 0 then
            some ((|trend.totalChange| : ℚ) / (trend.startRank : ℚ) * 100)
          else none
        prevPrice := none
        currPrice := none
        priceChangePct := none
        prevReviewCount := none
        currReviewCount := none
        reviewChange := none
        contextCollected := false
        insightGenerated := false }

/-- Embeds `_check_price_change`; `not current.price or not previous.price` skips
`None` and `0` alike. -/
def checkPriceChange (cfg : Config) (current previous : Ranking) :
    Option Event :=
  match current.price, previous.price with
  | some currPrice, some prevPrice =>
      if currPrice = 0 ∨ prevPrice = 0 then none
      else
        let priceChange := currPrice - prevPrice
        let priceChangePct := priceChange / prevPrice * 100
        if |priceChangePct| < cfg.priceChangePctThreshold then none
        else
          some
            { eventType := "PRICE_CHANGE"
              severity := if |priceChangePct| ≥ 30 then "medium" else "low"
              prevRank := none
              currRank := none
              rankChange := none
              rankChangePct := none
              prevPrice := some prevPrice
              currPrice := some currPrice
              priceChangePct := some priceChangePct
              prevReviewCount := none
              currReviewCount := none
              reviewChange := none
              contextCollected := false
              insightGenerated := false }
  | _, _ => none

/-- Embeds `_check_review_surge`; `not current.review_count or not
previous.review_count` skips `None` and `0` alike. -/
def checkReviewSurge (cfg : Config) (current previous : Ranking) :
    Option Event :=
  match current.reviewCount, previous.reviewCount with
  | some currCount, some prevCount =>
      if currCount = 0 ∨ prevCount = 0 then none
      else
        let reviewChange := currCount - prevCount
        if reviewChange < cfg.reviewSurgeThreshold then none
        else
          some
            { eventType := "REVIEW_SURGE"
              severity := if reviewChange ≥ 500 then "high" else "medium"
              prevRank := none
              currRank := none
              rankChange := none
              rankChangePct := none
              prevPrice := none
              currPrice := none
              priceChangePct := none
              prevReviewCount := some prevCount
              currReviewCount := some currCount
              reviewChange := some reviewChange
              contextCollected := false
              insightGenerated := false }
  | _, _ => none

/-- Embeds `_check_stock_change`; empty strings are falsy like `None`. -/
def checkStockChange (current previous : Ranking) : Option Event :=
  match current.stockStatus, previous.stockStatus with
  | some currStatus, some prevStatus =>
      if currStatus = "" ∨ prevStatus = "" then none
      else if currStatus = prevStatus then none
      else if currStatus = "out_of_stock" ∨ prevStatus = "out_of_stock" then
        some
          { eventType := "STOCK_CHANGE"
            severity := if currStatus = "out_of_stock" then "high" else "medium"
            prevRank := none
            currRank := none
            rankChange := none
            rankChangePct := none
            prevPrice := none
            currPrice := none
            priceChangePct := none
            prevReviewCount := none
            currReviewCount := none
            reviewChange := none
            contextCollected := false
            insightGenerated := false }
      else none
  | _, _ => none

/-- The auxiliary portion of `_analyze_category_trend` (its
`if len(rankings) >= 2:` block): when at least two rankings exist, run the
three detectors on the two most recent snapshots
(`rankings[0]`, `rankings[1]`). -/
def auxEventsOf (cfg : Config) (current : Ranking) (tail : List Ranking) :
    List Event :=
  match tail with
  | [] => []
  | previous :: _ =>
      (checkPriceChange cfg current previous).toList ++
        (checkReviewSurge cfg current previous).toList ++
        (checkStockChange current previous).toList

/-- Embeds `_analyze_category_trend`, from the point where the
descending-by-time ranking list for one (product, category) pair has been
fetched (`now = rankings[0].collected_at`).  When `_select_trend_for_event`
returns no selection the function returns the still-empty events list early
(`if not selection: return events`), so the auxiliary detectors run only
after a passing trend was selected; `if rank_event:` is the option's
`toList`.  The inner empty-list branch is unreachable when
`trend_min_data_points ≥ 1`. -/
def analyzeCategoryTrend (cfg : Config) (rankings : List Ranking) :
    List Event :=
  if rankings.length < cfg.trendMinDataPoints then []
  else
    match rankings with
    | [] => []
    | current :: tail =>
        match selectTrendForEvent cfg
            (calculateTrendsByWindow cfg (current :: tail)
              current.collectedAt) with
        | none => []
        | some (selectedTrend, eventType) =>
            (buildRankEvent cfg selectedTrend eventType).toList ++
              auxEventsOf cfg current tail

/-- Embeds the `detect_events` / `_detect_product_events_by_category` control flow over
the enumerated (product, category) pairs.  The loop bodies contain no
`try/except`, so a Python exception raised while evaluating one pair
propagates out of `detect_events`; per-pair evaluation is therefore modelled
as an `Except`-valued function and the loop sequences results with
exception propagation. -/
def detectEventsRun (analyzeOne : Nat → Except String (List Event)) :
    List Nat → Except String (List Event)
  | [] => Except.ok []
  | pair :: pairs =>
      match analyzeOne pair with
      | Except.error msg => Except.error msg
      | Except.ok events =>
          match detectEventsRun analyzeOne pairs with
          | Except.error msg => Except.error msg
          | Except.ok rest => Except.ok (events ++ rest)

/-- Membership of a rank in a tier's `(min, max)` range. -/
def inTier (t : RankTier) (rank : Int) : Prop :=
  t.minRank ≤ rank ∧ rank ≤ t.maxRank

/-- Magnitude component of the severity score as the spec words it
(0 if below 5, 10 for 5–9, 20 for 10–14, 30 for 15–19, 40 from 20 up);
stated for comparison with `calculateSeverityScore`. -/
def specMagnitudeComponent (changeAmount : Int) : Int :=
  if changeAmount < 5 then 0
  else if changeAmount ≤ 9 then 10
  else if changeAmount ≤ 14 then 20
  else if changeAmount ≤ 19 then 30
  else 40

/-- Rank-tier component of the severity score as the spec words it. -/
def specRankTierComponent (currentRank : Int) : Int :=
  if currentRank ≤ 5 then 40
  else if currentRank ≤ 10 then 30
  else if currentRank ≤ 20 then 20
  else if currentRank ≤ 30 then 10
  else 0

/-- Severity score as the claim words it, with a *rounded* consistency
component (`round(consistency * 20)`); stated for comparison with the
code's truncating `calculateSeverityScore`. -/
def specSeverityScoreRounded (changeAmount : Int) (currentRank : Int)
    (consistency : ℚ) : Int :=
  specMagnitudeComponent changeAmount + specRankTierComponent currentRank +
    round (consistency * 20)

/-- The `EVENT_RANK_THRESHOLDS` table of `config/settings.py`. -/
def defaultRankThresholds : List RankTier :=
  [⟨1, 5, 2⟩, ⟨6, 10, 3⟩, ⟨11, 20, 5⟩, ⟨21, 30, 7⟩, ⟨31, 50, 10⟩, ⟨51, 100, 15⟩]

/-- The detector configuration with the `config/settings.py` defaults
(windows `[1, 6, 24]`, three minimum data points, consistency 0.6, surge
window 1 h, steady window 24 h, steady floor 0.8, hybrid thresholds on). -/
def defaultConfig : Config :=
  { trendWindowsHours := [1, 6, 24]
    trendMinDataPoints := 3
    trendConsistencyThreshold := 3/5
    surgeWindowHours := 1
    steadyWindowHours := 24
    steadyConsistencyMin := 4/5
    rankThresholds := defaultRankThresholds
    rankChangePctThreshold := 30
    useHybridThreshold := true
    priceChangePctThreshold := 20
    reviewSurgeThreshold := 100 }

/-- Fixture: snapshot at rank 10, price 100, taken at hour 0. -/
def flatSnapOld : Ranking := ⟨10, some 100, none, none, 0⟩

/-- Fixture: snapshot at rank 10, price 100, taken at hour 1. -/
def flatSnapMid : Ranking := ⟨10, some 100, none, none, 1⟩

/-- Fixture: snapshot at rank 10 whose price dropped 25% to 75, hour 2. -/
def flatSnapNew : Ranking := ⟨10, some 75, none, none, 2⟩

/-- Fixture: a single-window configuration that lets two snapshots twelve
hours apart form a trend (window 12 h, two minimum data points). -/
def demoTrendCfg : Config :=
  { trendWindowsHours := [12]
    trendMinDataPoints := 2
    trendConsistencyThreshold := 3/5
    surgeWindowHours := 1
    steadyWindowHours := 24
    steadyConsistencyMin := 4/5
    rankThresholds := defaultRankThresholds
    rankChangePctThreshold := 30
    useHybridThreshold := true
    priceChangePctThreshold := 20
    reviewSurgeThreshold := 100 }

/-- Fixture: snapshot at rank 80, hour 0. -/
def demoSnapOld : Ranking := ⟨80, none, none, none, 0⟩

/-- Fixture: snapshot at rank 25, hour 12. -/
def demoSnapNew : Ranking := ⟨25, none, none, none, 12⟩

/-- Fixture: a passing steady-window trend (30 → 20 over 24 h,
consistency 0.9). -/
def demoSteadyTrend : Trend :=
  { direction := "rising", totalChange := 10, startRank := 30, endRank := 20
    consistency := 9/10, avgChangePerHour := 5/12, dataPoints := 5 }

/-- Fixture: a passing surge-window trend (10 → 5 over 1 h,
consistency 1). -/
def demoSurgeTrend : Trend :=
  { direction := "rising", totalChange := 5, startRank := 10, endRank := 5
    consistency := 1, avgChangePerHour := 5, dataPoints := 3 }

/-- Fixture: an arbitrary event list returned by a succeeding pair in the
orchestrator model. -/
def demoEvent : Event :=
  { eventType := "REVIEW_SURGE", severity := "medium"
    prevRank := none, currRank := none, rankChange := none
    rankChangePct := none, prevPrice := none, currPrice := none
    priceChangePct := none, prevReviewCount := some 100
    currReviewCount := some 250, reviewChange := some 150
    contextCollected := false, insightGenerated := false }

/-- Fixture: a per-pair evaluation in which pair 0 raises (a malformed
snapshot) and every other pair succeeds with one event. -/
def analyzeOneDemo : Nat → Except String (List Event) :=
  fun pair =>
    if pair = 0 then Except.error "malformed snapshot"
    else Except.ok [demoEvent]

/-- Fixture: the rank event produced by a detection pass over
`[demoSnapNew, demoSnapOld]` under `demoTrendCfg`. -/
def demoRankEvent : Event :=
  { eventType := "STEADY_RISE", severity := "high"
    prevRank := some 80, currRank := some 25, rankChange := some (-55)
    rankChangePct := some (275/4), prevPrice := none, currPrice := none
    priceChangePct := none, prevReviewCount := none, currReviewCount := none
    reviewChange := none, contextCollected := false, insightGenerated := false }

theorem getRankThreshold_cons_pos (hd : RankTier) (tl : List RankTier)
    (rank : Int) (h : hd.minRank ≤ rank ∧ rank ≤ hd.maxRank) :
    getRankThreshold (hd :: tl) rank = hd.threshold := by
  unfold getRankThreshold; exact if_pos h

theorem getRankThreshold_cons_neg (hd : RankTier) (tl : List RankTier)
    (rank : Int) (h : ¬ (hd.minRank ≤ rank ∧ rank ≤ hd.maxRank)) :
    getRankThreshold (hd :: tl) rank = getRankThreshold tl rank := by
  conv_lhs => rw [getRankThreshold]
  exact if_neg h

/-- C2 (amended): the severity score is the sum of the spec's magnitude and
rank-tier components plus a consistency component equal to
`int(consistency * 20)` — *truncation*, not `round` — and the severity label
is `critical` iff score ≥ 80, `high` iff 60 ≤ score < 80, `medium` iff
40 ≤ score < 60, and `low` otherwise.  The scorer is a pure function, hence
deterministic. -/
theorem C2_severity_scoring (changeAmount currentRank : Int) (consistency : ℚ)
    (hchange : 0 ≤ changeAmount) (hrank : 1 ≤ currentRank)
    (hcons0 : 0 ≤ consistency) (hcons1 : consistency ≤ 1) :
    calculateSeverityScore changeAmount currentRank consistency =
      specMagnitudeComponent changeAmount + specRankTierComponent currentRank +
        truncToInt (consistency * 20)
    ∧ (calculateSeverity changeAmount currentRank consistency = "critical" ↔
        80 ≤ calculateSeverityScore changeAmount currentRank consistency)
    ∧ (calculateSeverity changeAmount currentRank consistency = "high" ↔
        60 ≤ calculateSeverityScore changeAmount currentRank consistency ∧
          calculateSeverityScore changeAmount currentRank consistency < 80)
    ∧ (calculateSeverity changeAmount currentRank consistency = "medium" ↔
        40 ≤ calculateSeverityScore changeAmount currentRank consistency ∧
          calculateSeverityScore changeAmount currentRank consistency < 60)
    ∧ (calculateSeverity changeAmount currentRank consistency = "low" ↔
        calculateSeverityScore changeAmount currentRank consistency < 40) := by
  refine ⟨?_, ?_, ?_, ?_, ?_⟩
  · simp only [calculateSeverityScore, specMagnitudeComponent,
      specRankTierComponent]
    split_ifs <;> omega
  all_goals
    simp only [calculateSeverity]
    split_ifs with h1 h2 h3 <;> simp_all <;> omega

/-- C2 counterexample: at `(change, rank, consistency) = (20, 15, 0.98)` the
claim's rounded formula scores `40 + 20 + round(19.6) = 80`, hence predicts
`critical`, but the code truncates `int(19.6) = 19` and answers `high`. -/
theorem C2_severity_counterexample :
    specSeverityScoreRounded 20 15 (49/50) = 80 ∧
      calculateSeverity 20 15 (49/50) = "high" := by
  constructor
  · norm_num [specSeverityScoreRounded, specMagnitudeComponent,
      specRankTierComponent, round_eq]
  · norm_num [calculateSeverity, calculateSeverityScore, truncToInt]

/-- C2 witness: the claim's two sample points, derived from
`C2_severity_scoring`. -/
theorem C2_severity_scoring_witness :
    calculateSeverity 22 3 1 = "critical" ∧
      calculateSeverity 6 35 (1/2) = "low" := by
  constructor
  · exact ((C2_severity_scoring 22 3 1 (by norm_num) (by norm_num)
      (by norm_num) (by norm_num)).2.1).mpr
      (by norm_num [calculateSeverityScore, truncToInt])
  · exact ((C2_severity_scoring 6 35 (1/2) (by norm_num) (by norm_num)
      (by norm_num) (by norm_num)).2.2.2.2).mpr
      (by norm_num [calculateSeverityScore, truncToInt])

/-- C4 (amended): for pairwise-disjoint tiers, a rank inside a configured
tier's range gets that tier's threshold; a rank matched by no configured
tier — beyond the highest tier or with an empty table — gets the *constant*
15, regardless of the configured tiers' threshold values. -/
theorem C4_tiered_threshold_fallback (tiers : List RankTier) (rank : Int)
    (hdisj : List.Pairwise
      (fun a b => ∀ r : Int, ¬ (inTier a r ∧ inTier b r)) tiers) :
    (∀ t ∈ tiers, inTier t rank → getRankThreshold tiers rank = t.threshold) ∧
    ((∀ t ∈ tiers, ¬ inTier t rank) → getRankThreshold tiers rank = 15) := by
  induction tiers with
  | nil =>
      exact ⟨by intro t ht; simp at ht, fun _ => rfl⟩
  | cons hd tl ih =>
      obtain ⟨hhd, htl⟩ := List.pairwise_cons.mp hdisj
      obtain ⟨ih1, ih2⟩ := ih htl
      constructor
      · intro t ht hmem
        rcases List.mem_cons.mp ht with rfl | htmem
        · exact getRankThreshold_cons_pos t tl rank hmem
        · have hnot : ¬ inTier hd rank :=
            fun hc => hhd t htmem rank ⟨hc, hmem⟩
          rw [getRankThreshold_cons_neg hd tl rank hnot]
          exact ih1 t htmem hmem
      · intro hnone
        rw [getRankThreshold_cons_neg hd tl rank (hnone hd (List.mem_cons_self hd tl))]
        exact ih2 (fun t ht => hnone t (List.mem_cons_of_mem _ ht))

/-- C4 counterexample: with a single configured tier `1–10 → 99`, rank 200
lies beyond the highest configured tier, yet the lookup returns the
hard-coded 15, not the lowest tier's threshold value 99. -/
theorem C4_fallback_counterexample :
    getRankThreshold [⟨1, 10, 99⟩] 200 = 15 ∧
      getRankThreshold [⟨1, 10, 99⟩] 200 ≠ 99 := by
  constructor <;> decide

/-- C4 witness: instantiation at a one-tier table and rank 3. -/
theorem C4_tiered_threshold_fallback_witness :
    List.Pairwise (fun a b => ∀ r : Int, ¬ (inTier a r ∧ inTier b r))
        [(⟨1, 5, 2⟩ : RankTier)] ∧
      ((∀ t ∈ [(⟨1, 5, 2⟩ : RankTier)], inTier t 3 →
          getRankThreshold [⟨1, 5, 2⟩] 3 = t.threshold) ∧
        ((∀ t ∈ [(⟨1, 5, 2⟩ : RankTier)], ¬ inTier t 3) →
          getRankThreshold [⟨1, 5, 2⟩] 3 = 15)) :=
  ⟨by simp, C4_tiered_threshold_fallback [⟨1, 5, 2⟩] 3 (by simp)⟩

/-- C5: the threshold policy accepts a trend iff its consistency meets the
consistency threshold AND (the absolute tier gate passes OR hybrid mode is
on, the start rank is positive and the percentage gate passes); with hybrid
mode off, acceptance reduces to the consistency precondition plus the
absolute gate alone. -/
theorem C5_hybrid_or_semantics (cfg : Config) (trend : Trend) :
    (trendMeetsThresholds cfg trend = true ↔
      cfg.trendConsistencyThreshold ≤ trend.consistency ∧
        (getRankThreshold cfg.rankThresholds trend.endRank ≤ |trend.totalChange| ∨
          (cfg.useHybridThreshold = true ∧ 0 < trend.startRank ∧
            cfg.rankChangePctThreshold ≤
              (|trend.totalChange| : ℚ) / (trend.startRank : ℚ) * 100)))
    ∧ (cfg.useHybridThreshold = false →
        (trendMeetsThresholds cfg trend = true ↔
          cfg.trendConsistencyThreshold ≤ trend.consistency ∧
            getRankThreshold cfg.rankThresholds trend.endRank ≤ |trend.totalChange|)) := by
  have key : trendMeetsThresholds cfg trend = true ↔
      cfg.trendConsistencyThreshold ≤ trend.consistency ∧
        (getRankThreshold cfg.rankThresholds trend.endRank ≤ |trend.totalChange| ∨
          (cfg.useHybridThreshold = true ∧ 0 < trend.startRank ∧
            cfg.rankChangePctThreshold ≤
              (|trend.totalChange| : ℚ) / (trend.startRank : ℚ) * 100)) := by
    simp only [trendMeetsThresholds]
    by_cases h1 : trend.consistency < cfg.trendConsistencyThreshold
    · rw [if_pos h1]
      simp only [Bool.false_eq_true, false_iff]
      exact fun hc => absurd hc.1 (not_le.mpr h1)
    · rw [if_neg h1]
      by_cases h2 : |trend.totalChange| ≥
          getRankThreshold cfg.rankThresholds trend.endRank
      · rw [if_pos h2]
        simp only [true_iff]
        exact ⟨not_lt.mp h1, Or.inl h2⟩
      · rw [if_neg h2]
        by_cases h3 : cfg.useHybridThreshold = true ∧ trend.startRank > 0 ∧
            (|trend.totalChange| : ℚ) / (trend.startRank : ℚ) * 100 ≥
              cfg.rankChangePctThreshold
        · rw [if_pos h3]
          simp only [true_iff]
          exact ⟨not_lt.mp h1, Or.inr ⟨h3.1, h3.2.1, h3.2.2⟩⟩
        · rw [if_neg h3]
          simp only [Bool.false_eq_true, false_iff]
          rintro ⟨hc, hA | ⟨hh, hs, hp⟩⟩
          · exact h2 hA
          · exact h3 ⟨hh, hs, hp⟩
  refine ⟨key, fun hoff => ?_⟩
  rw [key, hoff]
  simp

/-- C5 witness: with hybrid mode off, acceptance of a concrete trend
(10 → 5, consistency 1) reduces to the consistency precondition plus the
absolute tier gate alone — the percentage gate is no longer consulted. -/
theorem C5_hybrid_or_semantics_witness :
    trendMeetsThresholds
        { demoTrendCfg with useHybridThreshold := false }
        { direction := "rising", totalChange := 5, startRank := 10
          endRank := 5, consistency := 1, avgChangePerHour := 5
          dataPoints := 3 } = true ↔
      (3/5 : ℚ) ≤ 1 ∧ getRankThreshold defaultRankThresholds 5 ≤ |(5 : Int)| := by
  have h := (C5_hybrid_or_semantics
    { demoTrendCfg with useHybridThreshold := false }
    { direction := "rising", totalChange := 5, startRank := 10
      endRank := 5, consistency := 1, avgChangePerHour := 5
      dataPoints := 3 }).2 rfl
  simpa [demoTrendCfg] using h

/-- C10: a zero price on either of the two latest snapshots disables the
price-change detector, a zero review count disables the review-surge
detector, and zero is treated exactly like a missing value. -/
theorem C10_zero_disables_aux (cfg : Config) (current previous : Ranking) :
    ((current.price = none ∨ current.price = some 0 ∨
        previous.price = none ∨ previous.price = some 0) →
      checkPriceChange cfg current previous = none) ∧
    ((current.reviewCount = none ∨ current.reviewCount = some 0 ∨
        previous.reviewCount = none ∨ previous.reviewCount = some 0) →
      checkReviewSurge cfg current previous = none) := by
  obtain ⟨crank, cprice, ccount, cstock, ctime⟩ := current
  obtain ⟨prank, pprice, pcount, pstock, ptime⟩ := previous
  constructor
  · intro h
    rcases cprice with _ | cp <;> rcases pprice with _ | pp <;>
      simp_all [checkPriceChange]
  · intro h
    rcases ccount with _ | cc <;> rcases pcount with _ | pc <;>
      simp_all [checkReviewSurge]

/-- C10 witness: a zero current price and zero current review count next to
a nonzero previous snapshot produce no auxiliary events. -/
theorem C10_zero_disables_aux_witness :
    checkPriceChange defaultConfig ⟨1, some 0, some 0, none, 1⟩
        ⟨1, some 5, some 5, none, 0⟩ = none ∧
      checkReviewSurge defaultConfig ⟨1, some 0, some 0, none, 1⟩
        ⟨1, some 5, some 5, none, 0⟩ = none := by
  have h := C10_zero_disables_aux defaultConfig ⟨1, some 0, some 0, none, 1⟩
    ⟨1, some 5, some 5, none, 0⟩
  exact ⟨h.1 (by simp), h.2 (by simp)⟩

theorem trendMapGet_ne_nil_isEmpty {l : List (Int × Trend)} {k : Int}
    {v : Trend} (h : trendMapGet l k = some v) : ¬ l.isEmpty = true := by
  cases l with
  | nil => simp [trendMapGet] at h
  | cons hd tl => simp

theorem maxByWindow_ne_nil {l : List (Int × Trend)} {x : Int × Trend}
    (h : maxByWindow l = some x) : l ≠ [] := by
  intro hnil; subst hnil; simp [maxByWindow] at h

theorem maxByWindow_go : ∀ (l : List (Int × Trend))
    (acc : Option (Int × Trend)) (x : Int × Trend),
    l.foldl (fun acc item =>
      match acc with
      | none => some item
      | some best => if item.1 > best.1 then some item else some best)
      acc = some x →
    (x ∈ l ∨ acc = some x) ∧ (∀ p ∈ l, p.1 ≤ x.1) ∧
      (∀ y, acc = some y → y.1 ≤ x.1)
  | [], acc, x, h => by
      refine ⟨Or.inr h, by simp, ?_⟩
      intro y hy
      rw [hy] at h
      obtain rfl := Option.some.inj h
      exact le_refl _
  | a :: l, acc, x, h => by
      obtain ⟨hmem, hle, hacc⟩ := maxByWindow_go l _ x h
      have hstep : ∀ z, (match acc with
          | none => some a
          | some best => if a.1 > best.1 then some a else some best) = some z →
          z = a ∨ acc = some z := by
        intro z hz
        cases acc with
        | none => exact Or.inl (Option.some.inj hz).symm
        | some best =>
            dsimp only at hz
            by_cases hgt : a.1 > best.1
            · rw [if_pos hgt] at hz
              exact Or.inl (Option.some.inj hz).symm
            · rw [if_neg hgt] at hz
              exact Or.inr (congrArg some (Option.some.inj hz))
      have ha_le : a.1 ≤ x.1 := by
        cases acc with
        | none => exact hacc a rfl
        | some best =>
            by_cases hgt : a.1 > best.1
            · exact hacc a (by dsimp only; rw [if_pos hgt])
            · exact le_trans (not_lt.mp hgt)
                (hacc best (by dsimp only; rw [if_neg hgt]))
      refine ⟨?_, ?_, ?_⟩
      · rcases hmem with hx | hx
        · exact Or.inl (List.mem_cons_of_mem a hx)
        · rcases hstep x hx with rfl | hx2
          · exact Or.inl (List.mem_cons_self _ l)
          · exact Or.inr hx2
      · intro p hp
        rcases List.mem_cons.mp hp with rfl | hp2
        · exact ha_le
        · exact hle p hp2
      · intro y hy
        cases acc with
        | none => simp at hy
        | some best =>
            obtain rfl := Option.some.inj hy
            by_cases hgt : a.1 > best.1
            · exact le_trans (le_of_lt hgt) ha_le
            · exact hacc best (by dsimp only; rw [if_neg hgt])

theorem maxByWindow_spec (l : List (Int × Trend)) (w : Int) (t : Trend)
    (h : maxByWindow l = some (w, t)) :
    (w, t) ∈ l ∧ ∀ p ∈ l, p.1 ≤ w := by
  obtain ⟨hmem, hle, _⟩ := maxByWindow_go l none (w, t) h
  refine ⟨?_, hle⟩
  rcases hmem with hx | hx
  · exact hx
  · simp at hx

theorem selectSurgeOrFallback_of_surge (cfg : Config)
    (trendMap : List (Int × Trend)) (su : Trend)
    (hlook : trendMapGet trendMap cfg.surgeWindowHours = some su)
    (hmeets : trendMeetsThresholds cfg su = true) :
    selectSurgeOrFallback cfg trendMap =
      some (su, if su.totalChange > 0 then "RANK_SURGE" else "RANK_DROP") := by
  simp only [selectSurgeOrFallback, hlook]
  rw [if_pos hmeets]

theorem selectSurgeOrFallback_of_no_surge (cfg : Config)
    (trendMap : List (Int × Trend))
    (hsurge : ∀ su, trendMapGet trendMap cfg.surgeWindowHours = some su →
      trendMeetsThresholds cfg su = false) :
    selectSurgeOrFallback cfg trendMap = selectFallback cfg trendMap := by
  simp only [selectSurgeOrFallback]
  cases hsu : trendMapGet trendMap cfg.surgeWindowHours with
  | none => rfl
  | some su =>
      show (if trendMeetsThresholds cfg su = true then
          some (su, if su.totalChange > 0 then "RANK_SURGE" else "RANK_DROP")
        else selectFallback cfg trendMap) = selectFallback cfg trendMap
      have hf : ¬ trendMeetsThresholds cfg su = true := by
        simp [hsurge su hsu]
      rw [if_neg hf]

/-- C6: if the steady window holds a threshold-passing trend whose
consistency meets the steady floor, the selector returns it classified
`STEADY_RISE`/`STEADY_DECLINE` (never a `RANK_*` type), even when the surge
window also holds a passing trend; only when the steady window does not
qualify is the surge window consulted; and when neither qualifies, the
passing trend with the largest window length is selected and classified as
steady iff its consistency meets the steady floor, else as surge/drop by
sign. -/
theorem C6_selector_precedence (cfg : Config)
    (trendMap : List (Int × Trend)) :
    (∀ st, trendMapGet trendMap cfg.steadyWindowHours = some st →
      trendMeetsThresholds cfg st = true →
      cfg.steadyConsistencyMin ≤ st.consistency →
      selectTrendForEvent cfg trendMap =
        some (st, if st.totalChange > 0 then "STEADY_RISE" else "STEADY_DECLINE"))
    ∧ ((∀ st, trendMapGet trendMap cfg.steadyWindowHours = some st →
          ¬ (trendMeetsThresholds cfg st = true ∧
            st.consistency ≥ cfg.steadyConsistencyMin)) →
        ∀ su, trendMapGet trendMap cfg.surgeWindowHours = some su →
          trendMeetsThresholds cfg su = true →
          selectTrendForEvent cfg trendMap =
            some (su, if su.totalChange > 0 then "RANK_SURGE" else "RANK_DROP"))
    ∧ ((∀ st, trendMapGet trendMap cfg.steadyWindowHours = some st →
          ¬ (trendMeetsThresholds cfg st = true ∧
            st.consistency ≥ cfg.steadyConsistencyMin)) →
        (∀ su, trendMapGet trendMap cfg.surgeWindowHours = some su →
          trendMeetsThresholds cfg su = false) →
        ∀ w t, maxByWindow (trendMap.filter
            (fun item => trendMeetsThresholds cfg item.2)) = some (w, t) →
          selectTrendForEvent cfg trendMap =
            some (t, if t.consistency ≥ cfg.steadyConsistencyMin then
                (if t.totalChange > 0 then "STEADY_RISE" else "STEADY_DECLINE")
              else
                (if t.totalChange > 0 then "RANK_SURGE" else "RANK_DROP")))
    ∧ (∀ w t, maxByWindow (trendMap.filter
          (fun item => trendMeetsThresholds cfg item.2)) = some (w, t) →
        ((w, t) ∈ trendMap ∧ trendMeetsThresholds cfg t = true) ∧
          ∀ p ∈ trendMap, trendMeetsThresholds cfg p.2 = true → p.1 ≤ w) := by
  refine ⟨?_, ?_, ?_, ?_⟩
  · intro st hlook hmeets hcons
    simp only [selectTrendForEvent, if_neg (trendMapGet_ne_nil_isEmpty hlook), hlook]
    rw [if_pos ⟨hmeets, hcons⟩]
  · intro hnosteady su hlook hmeets
    simp only [selectTrendForEvent, if_neg (trendMapGet_ne_nil_isEmpty hlook)]
    cases hst : trendMapGet trendMap cfg.steadyWindowHours with
    | none =>
        exact selectSurgeOrFallback_of_surge cfg trendMap su hlook hmeets
    | some st =>
        show (if trendMeetsThresholds cfg st = true ∧
              st.consistency ≥ cfg.steadyConsistencyMin then
            some (st, if st.totalChange > 0 then "STEADY_RISE" else "STEADY_DECLINE")
          else selectSurgeOrFallback cfg trendMap) = _
        rw [if_neg (hnosteady st hst)]
        exact selectSurgeOrFallback_of_surge cfg trendMap su hlook hmeets
  · intro hnosteady hnosurge w t hmax
    have hne : trendMap ≠ [] := by
      intro hnil
      exact maxByWindow_ne_nil hmax (by simp [hnil])
    have h0 : ¬ trendMap.isEmpty = true := by
      cases trendMap with
      | nil => exact absurd rfl hne
      | cons hd tl => simp
    have hfb : selectFallback cfg trendMap =
        some (t, if t.consistency ≥ cfg.steadyConsistencyMin then
            (if t.totalChange > 0 then "STEADY_RISE" else "STEADY_DECLINE")
          else
            (if t.totalChange > 0 then "RANK_SURGE" else "RANK_DROP")) := by
      simp only [selectFallback, hmax]
      split_ifs <;> rfl
    simp only [selectTrendForEvent, if_neg h0]
    cases hst : trendMapGet trendMap cfg.steadyWindowHours with
    | none =>
        exact (selectSurgeOrFallback_of_no_surge cfg trendMap hnosurge).trans hfb
    | some st =>
        show (if trendMeetsThresholds cfg st = true ∧
              st.consistency ≥ cfg.steadyConsistencyMin then
            some (st, if st.totalChange > 0 then "STEADY_RISE" else "STEADY_DECLINE")
          else selectSurgeOrFallback cfg trendMap) = _
        rw [if_neg (hnosteady st hst),
          selectSurgeOrFallback_of_no_surge cfg trendMap hnosurge]
        exact hfb
  · intro w t hmax
    obtain ⟨hmem, hle⟩ := maxByWindow_spec _ w t hmax
    have hmem2 := List.mem_filter.mp hmem
    refine ⟨⟨hmem2.1, by simpa using hmem2.2⟩, ?_⟩
    intro p hp hpass
    exact hle p (List.mem_filter.mpr ⟨hp, by simpa using hpass⟩)

/-- C6 witness: with the default windows, a map holding a passing surge
trend (window 1) and a passing steady trend of consistency 0.9 (window 24)
selects the steady trend as `STEADY_RISE`. -/
theorem C6_selector_precedence_witness :
    selectTrendForEvent defaultConfig
        [(1, demoSurgeTrend), (24, demoSteadyTrend)] =
      some (demoSteadyTrend, "STEADY_RISE") := by
  have hthr : getRankThreshold defaultRankThresholds 20 = 5 := by decide
  have hmeets : trendMeetsThresholds defaultConfig demoSteadyTrend = true := by
    norm_num [trendMeetsThresholds, demoSteadyTrend, defaultConfig, hthr]
  have h := (C6_selector_precedence defaultConfig
      [(1, demoSurgeTrend), (24, demoSteadyTrend)]).1 demoSteadyTrend
      (by simp [trendMapGet, defaultConfig]) hmeets
      (by norm_num [defaultConfig, demoSteadyTrend])
  simpa [demoSteadyTrend] using h

theorem buildRankEvent_some (cfg : Config) (trend : Trend) (ty : String)
    (e : Event) (h : buildRankEvent cfg trend ty = some e) :
    trendMeetsThresholds cfg trend = true ∧
    e.eventType = ty ∧
    e.prevRank = some trend.startRank ∧
    e.currRank = some trend.endRank ∧
    e.rankChange = some (trend.endRank - trend.startRank) ∧
    (trend.startRank > 0 →
      e.rankChangePct =
        some ((|trend.totalChange| : ℚ) / (trend.startRank : ℚ) * 100)) ∧
    (¬ trend.startRank > 0 → e.rankChangePct = none) := by
  unfold buildRankEvent at h
  split at h
  · exact absurd h (by simp)
  · rename_i hmeets
    obtain rfl := Option.some.inj h
    refine ⟨by simpa using hmeets, rfl, rfl, rfl, rfl, ?_, ?_⟩
    · intro hpos
      simp only [if_pos hpos]
    · intro hneg
      simp only [if_neg hneg]

theorem checkPriceChange_eventType (cfg : Config) (current previous : Ranking)
    (e : Event) (h : checkPriceChange cfg current previous = some e) :
    e.eventType = "PRICE_CHANGE" := by
  unfold checkPriceChange at h
  split at h
  · split at h
    · exact absurd h (by simp)
    · dsimp only at h
      split at h
      · exact absurd h (by simp)
      · obtain rfl := Option.some.inj h
        rfl
  · exact absurd h (by simp)

theorem checkReviewSurge_eventType (cfg : Config) (current previous : Ranking)
    (e : Event) (h : checkReviewSurge cfg current previous = some e) :
    e.eventType = "REVIEW_SURGE" := by
  unfold checkReviewSurge at h
  split at h
  · split at h
    · exact absurd h (by simp)
    · dsimp only at h
      split at h
      · exact absurd h (by simp)
      · obtain rfl := Option.some.inj h
        rfl
  · exact absurd h (by simp)

theorem checkStockChange_eventType (current previous : Ranking)
    (e : Event) (h : checkStockChange current previous = some e) :
    e.eventType = "STOCK_CHANGE" := by
  unfold checkStockChange at h
  split at h
  · split at h
    · exact absurd h (by simp)
    · split at h
      · exact absurd h (by simp)
      · split at h
        · obtain rfl := Option.some.inj h
          rfl
        · exact absurd h (by simp)
  · exact absurd h (by simp)

/-- C7: every rank-type event in the output of a detection pass comes from
a trend that satisfies the threshold policy, and carries
`prev_rank = start_rank`, `curr_rank = end_rank`,
`rank_change = end_rank - start_rank` and, when `start_rank > 0`,
`rank_change_pct = |total_change| / start_rank * 100` (else `None`) —
enough to reconstruct the trend that produced it. -/
theorem C7_rank_event_evidence (cfg : Config) (rankings : List Ranking)
    (e : Event) (he : e ∈ analyzeCategoryTrend cfg rankings)
    (hty : e.eventType = "RANK_SURGE" ∨ e.eventType = "RANK_DROP" ∨
      e.eventType = "STEADY_RISE" ∨ e.eventType = "STEADY_DECLINE") :
    ∃ trend : Trend,
      trendMeetsThresholds cfg trend = true ∧
      e.prevRank = some trend.startRank ∧
      e.currRank = some trend.endRank ∧
      e.rankChange = some (trend.endRank - trend.startRank) ∧
      (trend.startRank > 0 →
        e.rankChangePct =
          some ((|trend.totalChange| : ℚ) / (trend.startRank : ℚ) * 100)) ∧
      (¬ trend.startRank > 0 → e.rankChangePct = none) := by
  unfold analyzeCategoryTrend at he
  split at he
  · exact absurd he (by simp)
  · split at he
    · exact absurd he (by simp)
    · rename_i current tail hlen
      rcases hsel : selectTrendForEvent cfg
          (calculateTrendsByWindow cfg (current :: tail)
            current.collectedAt) with _ | ⟨trend, ty⟩
      · simp only [hsel] at he
        exact absurd he (by simp)
      · simp only [hsel, List.mem_append] at he
        rcases he with hrank | haux
        · rcases hbuild : buildRankEvent cfg trend ty with _ | e'
          · simp only [hbuild, Option.toList_none] at hrank
            exact absurd hrank (by simp)
          · simp only [hbuild, Option.toList_some, List.mem_singleton] at hrank
            subst hrank
            obtain ⟨hm, _, h1, h2, h3, h4, h5⟩ :=
              buildRankEvent_some cfg trend ty e hbuild
            exact ⟨trend, hm, h1, h2, h3, h4, h5⟩
        · exfalso
          cases tail with
          | nil => simp [auxEventsOf] at haux
          | cons previous rest =>
              simp only [auxEventsOf, List.mem_append] at haux
              have htype : e.eventType = "PRICE_CHANGE" ∨
                  e.eventType = "REVIEW_SURGE" ∨
                  e.eventType = "STOCK_CHANGE" := by
                rcases haux with (h | h) | h
                · exact Or.inl (checkPriceChange_eventType cfg current
                    previous e (by simpa using h))
                · exact Or.inr (Or.inl (checkReviewSurge_eventType cfg current
                    previous e (by simpa using h)))
                · exact Or.inr (Or.inr (checkStockChange_eventType current
                    previous e (by simpa using h)))
              rcases hty with h | h | h | h <;>
                rcases htype with h2 | h2 | h2 <;>
                  rw [h] at h2 <;> simp at h2

theorem demoPipeline_eval :
    analyzeCategoryTrend demoTrendCfg [demoSnapNew, demoSnapOld] =
      [demoRankEvent] := by
  norm_num [analyzeCategoryTrend, demoTrendCfg, auxEventsOf,
    calculateTrendsByWindow, calculateTrend, sortRankings, List.mergeSort,
    demoSnapNew, demoSnapOld, directionChanges, selectTrendForEvent,
    selectSurgeOrFallback, selectFallback, maxByWindow, trendMeetsThresholds,
    getRankThreshold, defaultRankThresholds, buildRankEvent, calculateSeverity,
    calculateSeverityScore, truncToInt, checkPriceChange, checkReviewSurge,
    checkStockChange, trendMapGet, demoRankEvent, List.filterMap_cons,
    List.filterMap_nil, List.filter_cons, List.filter_nil]

/-- C7 witness: the `STEADY_RISE` event of the demo pass is traceable to a
policy-satisfying trend. -/
theorem C7_rank_event_evidence_witness :
    ∃ trend : Trend,
      trendMeetsThresholds demoTrendCfg trend = true ∧
      demoRankEvent.prevRank = some trend.startRank ∧
      demoRankEvent.currRank = some trend.endRank ∧
      demoRankEvent.rankChange = some (trend.endRank - trend.startRank) ∧
      (trend.startRank > 0 →
        demoRankEvent.rankChangePct =
          some ((|trend.totalChange| : ℚ) / (trend.startRank : ℚ) * 100)) ∧
      (¬ trend.startRank > 0 → demoRankEvent.rankChangePct = none) :=
  C7_rank_event_evidence demoTrendCfg [demoSnapNew, demoSnapOld] demoRankEvent
    (by rw [demoPipeline_eval]; exact List.mem_singleton.mpr rfl)
    (Or.inr (Or.inr (Or.inl rfl)))

theorem directionChanges_chain_lt : ∀ (ranks : List Int),
    List.Chain' (fun a b => a < b) ranks →
    directionChanges ranks = List.replicate (ranks.length - 1) (-1)
  | [], _ => rfl
  | [_], _ => rfl
  | a :: b :: rest, h => by
      obtain ⟨hab, htail⟩ := List.chain'_cons.mp h
      have h1 : a - b ≠ 0 := by omega
      have h2 : ¬ a - b > 0 := by omega
      simp only [directionChanges, if_pos h1, if_neg h2,
        directionChanges_chain_lt (b :: rest) htail, List.length_cons,
        Nat.add_sub_cancel, List.replicate_succ, List.singleton_append]

theorem directionChanges_chain_gt : ∀ (ranks : List Int),
    List.Chain' (fun a b => b < a) ranks →
    directionChanges ranks = List.replicate (ranks.length - 1) 1
  | [], _ => rfl
  | [_], _ => rfl
  | a :: b :: rest, h => by
      obtain ⟨hab, htail⟩ := List.chain'_cons.mp h
      have h1 : a - b ≠ 0 := by omega
      have h2 : a - b > 0 := by omega
      simp only [directionChanges, if_pos h1, if_pos h2,
        directionChanges_chain_gt (b :: rest) htail, List.length_cons,
        Nat.add_sub_cancel, List.replicate_succ, List.singleton_append]

theorem rank_lt_getLastD : ∀ (first : Ranking) (rest : List Ranking),
    List.Chain' (fun a b => a.rank < b.rank) (first :: rest) → rest ≠ [] →
    first.rank < ((first :: rest).getLastD first).rank
  | _, [], _, hne => absurd rfl hne
  | first, b :: rest, h, _ => by
      obtain ⟨hab, htail⟩ := List.chain'_cons.mp h
      rw [List.getLastD_cons]
      cases rest with
      | nil => simpa using hab
      | cons c rest2 =>
          exact hab.trans (rank_lt_getLastD b (c :: rest2) htail (by simp))

theorem rank_gt_getLastD : ∀ (first : Ranking) (rest : List Ranking),
    List.Chain' (fun a b => b.rank < a.rank) (first :: rest) → rest ≠ [] →
    ((first :: rest).getLastD first).rank < first.rank
  | _, [], _, hne => absurd rfl hne
  | first, b :: rest, h, _ => by
      obtain ⟨hab, htail⟩ := List.chain'_cons.mp h
      rw [List.getLastD_cons]
      cases rest with
      | nil => simpa using hab
      | cons c rest2 =>
          exact (rank_gt_getLastD b (c :: rest2) htail (by simp)).trans hab

theorem length_filter_eq_replicate (n : Nat) (a : Int) :
    ((List.replicate n a).filter (fun d => d = a)).length = n := by
  induction n with
  | zero => rfl
  | succ k ih => simp [List.replicate_succ, List.filter_cons, ih]

/-- C8: a snapshot list of at least two points whose ranks, after the
defensive sort by `collected_at`, are strictly monotone yields a trend with
consistency exactly 1. -/
theorem C8_monotonic_consistency (rankings : List Ranking)
    (h2 : 2 ≤ rankings.length)
    (hmono :
      List.Chain' (fun a b => a.rank < b.rank) (sortRankings rankings) ∨
      List.Chain' (fun a b => b.rank < a.rank) (sortRankings rankings)) :
    ∃ t : Trend, calculateTrend rankings = some t ∧ t.consistency = 1 := by
  have hlen : ¬ rankings.length < 2 := not_lt.mpr h2
  have hslen : (sortRankings rankings).length = rankings.length :=
    List.length_mergeSort rankings
  simp only [calculateTrend, if_neg hlen]
  cases hsort : sortRankings rankings with
  | nil => rw [hsort] at hslen; simp at hslen; omega
  | cons first rest =>
      rw [hsort] at hslen hmono
      have hne : rest ≠ [] := by
        intro hnil
        rw [hnil] at hslen
        simp at hslen
        omega
      have hrlen : rest.length ≠ 0 := fun hz => hne (List.length_eq_zero.mp hz)
      rcases hmono with hinc | hdec
      · have hdirs : directionChanges ((first :: rest).map (fun r => r.rank)) =
            List.replicate rest.length (-1) := by
          rw [directionChanges_chain_lt _
            ((List.chain'_map (fun r : Ranking => r.rank)).mpr hinc)]
          simp
        have hlast : first.rank < ((first :: rest).getLastD first).rank :=
          rank_lt_getLastD first rest hinc hne
        have hprim : ¬ first.rank - ((first :: rest).getLastD first).rank > 0 := by
          omega
        have hemp : ¬ (List.replicate rest.length (-1 : Int)).isEmpty = true := by
          simp [List.isEmpty_iff, hrlen]
        dsimp only
        rw [hdirs, if_neg hemp]
        refine ⟨_, rfl, ?_⟩
        dsimp only
        rw [if_neg hprim]
        simp only [length_filter_eq_replicate, List.length_replicate]
        exact div_self (by exact_mod_cast hrlen)
      · have hdirs : directionChanges ((first :: rest).map (fun r => r.rank)) =
            List.replicate rest.length 1 := by
          rw [directionChanges_chain_gt _
            ((List.chain'_map (fun r : Ranking => r.rank)).mpr hdec)]
          simp
        have hlast : ((first :: rest).getLastD first).rank < first.rank :=
          rank_gt_getLastD first rest hdec hne
        have hprim : first.rank - ((first :: rest).getLastD first).rank > 0 := by
          omega
        have hemp : ¬ (List.replicate rest.length (1 : Int)).isEmpty = true := by
          simp [List.isEmpty_iff, hrlen]
        dsimp only
        rw [hdirs, if_neg hemp]
        refine ⟨_, rfl, ?_⟩
        dsimp only
        rw [if_pos hprim]
        simp only [length_filter_eq_replicate, List.length_replicate]
        exact div_self (by exact_mod_cast hrlen)

/-- C8 witness: ranks 80 → 25 over twelve hours form a strictly decreasing
sorted sequence whose trend has consistency 1. -/
theorem C8_monotonic_consistency_witness :
    ∃ t : Trend, calculateTrend [demoSnapNew, demoSnapOld] = some t ∧
      t.consistency = 1 :=
  C8_monotonic_consistency [demoSnapNew, demoSnapOld] (by norm_num)
    (Or.inr (by
      have hs : sortRankings [demoSnapNew, demoSnapOld] =
          [demoSnapOld, demoSnapNew] := by
        norm_num [sortRankings, List.mergeSort, demoSnapNew, demoSnapOld]
      rw [hs]
      simp [List.chain'_cons, demoSnapNew, demoSnapOld]))

theorem calculateTrend_flat (rankings : List Ranking) (c : Int)
    (hflat : ∀ r ∈ rankings, r.rank = c) :
    calculateTrend rankings = none := by
  by_cases hlen : rankings.length < 2
  · simp only [calculateTrend, if_pos hlen]
  · simp only [calculateTrend, if_neg hlen]
    cases hsort : sortRankings rankings with
    | nil => rfl
    | cons first rest =>
        have hmem : ∀ r ∈ first :: rest, r ∈ rankings := by
          intro r hr
          have hperm := List.mergeSort_perm rankings
            (fun a b => a.collectedAt ≤ b.collectedAt)
          rw [show rankings.mergeSort
              (fun a b => a.collectedAt ≤ b.collectedAt) =
              sortRankings rankings from rfl, hsort] at hperm
          exact hperm.mem_iff.mp hr
        have hdirs : directionChanges ((first :: rest).map (fun r => r.rank)) =
            [] := by
          have hconst : ∀ x ∈ (first :: rest).map (fun r => r.rank), x = c := by
            intro x hx
            obtain ⟨r, hr, rfl⟩ := List.mem_map.mp hx
            exact hflat r (hmem r hr)
          clear hsort hmem hflat hlen
          generalize (first :: rest).map (fun r => r.rank) = ranks at hconst
          induction ranks with
          | nil => rfl
          | cons a tail ih =>
              cases tail with
              | nil => rfl
              | cons b rest2 =>
                  have ha : a = c := hconst a (by simp)
                  have hb : b = c := hconst b (by simp)
                  have hz : ¬ a - b ≠ 0 := by omega
                  simp only [directionChanges, if_neg hz, List.nil_append]
                  exact ih (fun x hx => hconst x (List.mem_cons_of_mem a hx))
        dsimp only
        rw [hdirs]
        rfl

/-- C9: a snapshot list of at least two points whose ranks are all equal
yields no trend: `_calculate_trend` returns `None` (it is a total function —
no exception path exists). -/
theorem C9_flat_no_trend (rankings : List Ranking) (h2 : 2 ≤ rankings.length)
    (hflat : ∀ r ∈ rankings, ∀ s ∈ rankings, r.rank = s.rank) :
    calculateTrend rankings = none := by
  cases rankings with
  | nil => simp at h2
  | cons r0 tail =>
      exact calculateTrend_flat (r0 :: tail) r0.rank
        (fun r hr => hflat r hr r0 (by simp))

/-- C9 witness: three equal-rank snapshots yield no trend. -/
theorem C9_flat_no_trend_witness :
    calculateTrend [flatSnapNew, flatSnapMid, flatSnapOld] = none :=
  C9_flat_no_trend [flatSnapNew, flatSnapMid, flatSnapOld] (by norm_num)
    (by decide)

theorem calculateTrendsByWindow_flat (cfg : Config)
    (rankings : List Ranking) (now : ℚ) (c : Int)
    (hflat : ∀ r ∈ rankings, r.rank = c) :
    calculateTrendsByWindow cfg rankings now = [] := by
  unfold calculateTrendsByWindow
  rw [List.filterMap_eq_nil_iff]
  intro w hw
  dsimp only
  split
  · rfl
  · rw [calculateTrend_flat _ c
      (fun r hr => hflat r (List.mem_of_mem_filter hr))]
    rfl

/-- C1 (amended): the auxiliary detectors are evaluated on the two most
recent snapshots only when the rank-trend pipeline selects a passing trend.
For a pair whose snapshot list reaches the configured minimum data-point
count: with no selection the pass returns the still-empty events list
(early return, before the auxiliary detectors); with a selection the result
is the built rank event followed by whatever the three auxiliary detectors
emit on the two most recent snapshots; a flat-rank pair therefore emits
zero events — even when its price dropped 25%. -/
theorem C1_aux_dependence (cfg : Config) (r0 r1 : Ranking)
    (rest : List Ranking)
    (hmin : cfg.trendMinDataPoints ≤ (r0 :: r1 :: rest).length) :
    (selectTrendForEvent cfg (calculateTrendsByWindow cfg (r0 :: r1 :: rest)
        r0.collectedAt) = none →
      analyzeCategoryTrend cfg (r0 :: r1 :: rest) = []) ∧
    (∀ trend ty, selectTrendForEvent cfg
        (calculateTrendsByWindow cfg (r0 :: r1 :: rest) r0.collectedAt) =
          some (trend, ty) →
      analyzeCategoryTrend cfg (r0 :: r1 :: rest) =
        (buildRankEvent cfg trend ty).toList ++
          ((checkPriceChange cfg r0 r1).toList ++
            (checkReviewSurge cfg r0 r1).toList ++
            (checkStockChange r0 r1).toList)) ∧
    ((∀ r ∈ r0 :: r1 :: rest, r.rank = r0.rank) →
      analyzeCategoryTrend cfg (r0 :: r1 :: rest) = []) := by
  have hlen : ¬ (r0 :: r1 :: rest).length < cfg.trendMinDataPoints :=
    not_lt.mpr hmin
  have hnone : selectTrendForEvent cfg
      (calculateTrendsByWindow cfg (r0 :: r1 :: rest) r0.collectedAt) =
        none →
      analyzeCategoryTrend cfg (r0 :: r1 :: rest) = [] := by
    intro hsel
    simp only [analyzeCategoryTrend, if_neg hlen, hsel]
  refine ⟨hnone, ?_, ?_⟩
  · intro trend ty hsel
    simp only [analyzeCategoryTrend, if_neg hlen, hsel, auxEventsOf]
  · intro hflat
    refine hnone ?_
    rw [calculateTrendsByWindow_flat cfg _ _ r0.rank hflat]
    rfl

/-- C1 counterexample: under the default configuration a flat-rank pair
with three snapshots — meeting `trend_min_data_points = 3` — and a 25%
price drop emits no events at all: no trend is selected, so
`_analyze_category_trend` returns before the auxiliary detectors run, even
though the price-change detector fires on that very snapshot pair. -/
theorem C1_counterexample :
    analyzeCategoryTrend defaultConfig
        [flatSnapNew, flatSnapMid, flatSnapOld] = [] ∧
      (checkPriceChange defaultConfig flatSnapNew flatSnapMid).isSome
        = true := by
  constructor
  · have hlen : ¬ ([flatSnapNew, flatSnapMid, flatSnapOld].length <
        defaultConfig.trendMinDataPoints) := by
      norm_num [defaultConfig]
    have hsel : selectTrendForEvent defaultConfig
        (calculateTrendsByWindow defaultConfig
          [flatSnapNew, flatSnapMid, flatSnapOld]
          flatSnapNew.collectedAt) = none := by
      rw [calculateTrendsByWindow_flat defaultConfig _ _ 10 (by decide)]
      rfl
    simp only [analyzeCategoryTrend, if_neg hlen, hsel]
  · norm_num [checkPriceChange, flatSnapNew, flatSnapMid, defaultConfig]

/-- C1 witness: three flat-rank snapshots with a 25% price drop emit zero
events, by the flat-rank clause of `C1_aux_dependence`. -/
theorem C1_aux_dependence_witness :
    analyzeCategoryTrend defaultConfig
        [flatSnapNew, flatSnapMid, flatSnapOld] = [] :=
  (C1_aux_dependence defaultConfig flatSnapNew flatSnapMid [flatSnapOld]
    (by norm_num [defaultConfig])).2.2 (by decide)

/-- C3 (amended): the orchestrator loops of `detect_events` /
`_detect_product_events_by_category` contain no exception handling, so an
exception raised while evaluating one (product, category) pair propagates
out of `detect_events` and aborts the evaluation of all remaining pairs;
no count of evaluated versus failed pairs is reported. -/
theorem C3_error_propagation
    (analyzeOne : Nat → Except String (List Event))
    (pair : Nat) (pairs : List Nat) (msg : String)
    (herr : analyzeOne pair = Except.error msg) :
    detectEventsRun analyzeOne (pair :: pairs) = Except.error msg := by
  simp only [detectEventsRun, herr]

/-- C3 counterexample: pair 0 raises on a malformed snapshot and pair 1
alone yields one event, yet the batch run aborts with the exception instead
of isolating the failure and returning pair 1's events. -/
theorem C3_counterexample :
    detectEventsRun analyzeOneDemo [0, 1] =
        Except.error "malformed snapshot" ∧
      detectEventsRun analyzeOneDemo [1] = Except.ok [demoEvent] := by
  constructor <;> rfl

/-- C3 witness: the propagation theorem applied to the demo batch. -/
theorem C3_error_propagation_witness :
    detectEventsRun analyzeOneDemo [0, 1] =
      Except.error "malformed snapshot" :=
  C3_error_propagation analyzeOneDemo 0 [1] "malformed snapshot" rfl

end EventDetection
